import Mathlib

/-!
Verification of the temporal column engine (polars `DatetimeChunked`,
`polars-core/src/chunked_array/temporal/datetime.rs`).

A column is modelled as a list of nullable 64-bit ticks together with
column-level metadata: a time unit (resolution) and an optional time zone.
Chunking is collapsed to a single logical list (the chunked storage layer is
out of scope for the engine). Machine integers are modelled as unbounded
integers; Rust truncating division on `i64` is `Int.tdiv`.

External collaborators (the chrono calendar library, the arrow temporal
conversion helpers, the timezone rule database and the formatting grammar)
are not part of the given source tree; they are modelled from the design
document, with a doc comment on each such definition saying so.
-/

/-- Time resolutions supported by the engine (mirrors `TimeUnit` in the
source: nanoseconds, microseconds, milliseconds). -/
inductive TimeUnit where
  | Nanoseconds
  | Microseconds
  | Milliseconds
deriving DecidableEq, Repr

/-- Ticks per second of a resolution; the integer scale factor between two
resolutions is the quotient of their tick rates (section 4.1 of the design). -/
def tickRate : TimeUnit → Nat
  | TimeUnit.Nanoseconds => 1000000000
  | TimeUnit.Microseconds => 1000000
  | TimeUnit.Milliseconds => 1000

/-- Modelled from the spec: a calendar datetime value (chrono
`NaiveDateTime`, an external collaborator of the core), represented as
proleptic Gregorian year, month, day and time of day with a nanosecond
component. -/
structure NaiveDateTime where
  year : Int
  month : Nat
  day : Nat
  hour : Nat
  minute : Nat
  second : Nat
  nanosecond : Nat
deriving DecidableEq, Repr

/-- Proleptic Gregorian leap year predicate. -/
def IsLeapYear (y : Int) : Prop :=
  y % 4 = 0 ∧ (¬ y % 100 = 0 ∨ y % 400 = 0)

instance (y : Int) : Decidable (IsLeapYear y) := by
  unfold IsLeapYear; infer_instance

/-- Number of days of a month in a given year (month 1 is January). -/
def daysInMonth (y : Int) (m : Nat) : Nat :=
  match m with
  | 1 => 31 | 3 => 31 | 5 => 31 | 7 => 31 | 8 => 31 | 10 => 31 | 12 => 31
  | 4 => 30 | 6 => 30 | 9 => 30 | 11 => 30
  | 2 => if IsLeapYear y then 29 else 28
  | _ => 0

/-- Validity of a calendar datetime: month and day in range for the year,
time of day in range, nanosecond below one second. -/
def ValidDateTime (dt : NaiveDateTime) : Prop :=
  1 ≤ dt.month ∧ dt.month ≤ 12 ∧ 1 ≤ dt.day ∧ dt.day ≤ daysInMonth dt.year dt.month ∧
    dt.hour < 24 ∧ dt.minute < 60 ∧ dt.second < 60 ∧ dt.nanosecond < 1000000000

instance (dt : NaiveDateTime) : Decidable (ValidDateTime dt) := by
  unfold ValidDateTime; infer_instance

/-- Modelled from the spec: number of days from the epoch 1970-01-01 to the
given proleptic Gregorian date (the day count used by the external chrono
library; standard civil-from-days correspondence). Divisions are floor
divisions. -/
def days_from_civil (y : Int) (m d : Nat) : Int :=
  let ys : Int := if m ≤ 2 then y - 1 else y
  let era : Int := ys / 400
  let yoe : Int := ys - era * 400
  let mp : Int := if 2 < m then (m : Int) - 3 else (m : Int) + 9
  let doy : Int := (153 * mp + 2) / 5 + (d : Int) - 1
  let doe : Int := yoe * 365 + yoe / 4 - yoe / 100 + doy
  era * 146097 + doe - 719468

/-- Era index of a day number (component of the civil date decoding). -/
def cfd_era (z : Int) : Int := (z + 719468) / 146097

/-- Day within the 400-year era (component of the civil date decoding). -/
def cfd_doe (z : Int) : Int := (z + 719468) % 146097

/-- Year within the era recovered from the day within the era (component of
the civil date decoding). -/
def cfd_yoe (doe : Int) : Int :=
  (doe - doe / 1460 + doe / 36524 - doe / 146096) / 365

/-- Day of the shifted (March-first) year (component of the civil date
decoding). -/
def cfd_doy (doe yoe : Int) : Int := doe - (365 * yoe + yoe / 4 - yoe / 100)

/-- Modelled from the spec: inverse of `days_from_civil`, decoding a day
count since 1970-01-01 into a proleptic Gregorian date (year, month, day). -/
def civil_from_days (z : Int) : Int × Nat × Nat :=
  let era := cfd_era z
  let doe := cfd_doe z
  let yoe := cfd_yoe doe
  let y := yoe + era * 400
  let doy := cfd_doy doe yoe
  let mp := (5 * doy + 2) / 153
  let d := doy - (153 * mp + 2) / 5 + 1
  let m := if mp < 10 then mp + 3 else mp - 9
  (if m ≤ 2 then y + 1 else y, m.toNat, d.toNat)

/-- Modelled from the spec: `datetime_to_timestamp_ns` (polars-core
`temporal/conversion.rs`, not under src/; it delegates to the chrono
`timestamp_nanos`): encode a calendar value as nanoseconds since the epoch. -/
def datetime_to_timestamp_ns (dt : NaiveDateTime) : Int :=
  (days_from_civil dt.year dt.month dt.day * 86400 +
      ((dt.hour : Int) * 3600 + (dt.minute : Int) * 60 + (dt.second : Int))) * 1000000000 +
    (dt.nanosecond : Int)

/-- Modelled from the spec: `datetime_to_timestamp_us` (polars-core
`temporal/conversion.rs`, not under src/): encode a calendar value as
microseconds since the epoch, truncating the sub-microsecond part. -/
def datetime_to_timestamp_us (dt : NaiveDateTime) : Int :=
  (days_from_civil dt.year dt.month dt.day * 86400 +
      ((dt.hour : Int) * 3600 + (dt.minute : Int) * 60 + (dt.second : Int))) * 1000000 +
    ((dt.nanosecond / 1000 : Nat) : Int)

/-- Modelled from the spec: `datetime_to_timestamp_ms` (polars-core
`temporal/conversion.rs`, not under src/; it delegates to the chrono
`timestamp_millis`): encode a calendar value as milliseconds since the
epoch, truncating the sub-millisecond part. -/
def datetime_to_timestamp_ms (dt : NaiveDateTime) : Int :=
  (days_from_civil dt.year dt.month dt.day * 86400 +
      ((dt.hour : Int) * 3600 + (dt.minute : Int) * 60 + (dt.second : Int))) * 1000 +
    ((dt.nanosecond / 1000000 : Nat) : Int)

/-- Modelled from the spec: `timestamp_ns_to_datetime` (arrow temporal
conversions, an external collaborator): decode a nanosecond tick into a
calendar value; pure and total, selected per column by the resolution. -/
def timestamp_ns_to_datetime (t : Int) : NaiveDateTime :=
  let secs := t / 1000000000
  let nano := (t % 1000000000).toNat
  let days := secs / 86400
  let sod := (secs % 86400).toNat
  let ymd := civil_from_days days
  { year := ymd.1, month := ymd.2.1, day := ymd.2.2,
    hour := sod / 3600, minute := sod % 3600 / 60, second := sod % 60, nanosecond := nano }

/-- Modelled from the spec: `timestamp_us_to_datetime` (arrow temporal
conversions, an external collaborator): decode a microsecond tick into a
calendar value. -/
def timestamp_us_to_datetime (t : Int) : NaiveDateTime :=
  let secs := t / 1000000
  let nano := (t % 1000000).toNat * 1000
  let days := secs / 86400
  let sod := (secs % 86400).toNat
  let ymd := civil_from_days days
  { year := ymd.1, month := ymd.2.1, day := ymd.2.2,
    hour := sod / 3600, minute := sod % 3600 / 60, second := sod % 60, nanosecond := nano }

/-- Modelled from the spec: `timestamp_ms_to_datetime` (arrow temporal
conversions, an external collaborator): decode a millisecond tick into a
calendar value. -/
def timestamp_ms_to_datetime (t : Int) : NaiveDateTime :=
  let secs := t / 1000
  let nano := (t % 1000).toNat * 1000000
  let days := secs / 86400
  let sod := (secs % 86400).toNat
  let ymd := civil_from_days days
  { year := ymd.1, month := ymd.2.1, day := ymd.2.2,
    hour := sod / 3600, minute := sod % 3600 / 60, second := sod % 60, nanosecond := nano }

/-- Encode selector by resolution, mirroring the match statements of the
source (`from_naive_datetime`). -/
def encode_datetime (tu : TimeUnit) (dt : NaiveDateTime) : Int :=
  match tu with
  | TimeUnit.Nanoseconds => datetime_to_timestamp_ns dt
  | TimeUnit.Microseconds => datetime_to_timestamp_us dt
  | TimeUnit.Milliseconds => datetime_to_timestamp_ms dt

/-- Decode selector by resolution, mirroring the match statements of the
source (`as_datetime_iter`, `strftime`). -/
def decode_timestamp (tu : TimeUnit) (t : Int) : NaiveDateTime :=
  match tu with
  | TimeUnit.Nanoseconds => timestamp_ns_to_datetime t
  | TimeUnit.Microseconds => timestamp_us_to_datetime t
  | TimeUnit.Milliseconds => timestamp_ms_to_datetime t

/-- Representability of a calendar value at a resolution: the subsecond
component must be a whole number of resolution units (section 4.6 of the
design bounds the identity to values representable at the resolution). -/
def RepresentableAt (dt : NaiveDateTime) (tu : TimeUnit) : Prop :=
  match tu with
  | TimeUnit.Nanoseconds => True
  | TimeUnit.Microseconds => dt.nanosecond % 1000 = 0
  | TimeUnit.Milliseconds => dt.nanosecond % 1000000 = 0

instance (dt : NaiveDateTime) (tu : TimeUnit) : Decidable (RepresentableAt dt tu) := by
  unfold RepresentableAt; cases tu <;> infer_instance

/-- Errors of the engine; the source reports validation and rendering
problems as `PolarsError::ComputeError` with a message. -/
inductive PolarsError where
  | ComputeError (msg : String)
deriving DecidableEq, Repr

/-- Modelled from the spec: the external timezone rule database (an
out-of-scope collaborator). It supplies a fixed-offset parser, a named-zone
lookup, and instant conversion between two zones; the core consults it only
through these primitives. -/
structure TZDatabase where
  parsesAsOffset : String → Bool
  knownZone : String → Bool
  convertInstant : Int → TimeUnit → String → String → Int

/-- Timezone validator from the source `validate_time_zone`: a zone string
is accepted when the fixed-offset parser or the named-zone lookup accepts
it; otherwise an error naming the offending string is returned. -/
def validate_time_zone (db : TZDatabase) (tz : String) : Except PolarsError Unit :=
  match db.parsesAsOffset tz with
  | true => Except.ok ()
  | false =>
    match db.knownZone tz with
    | true => Except.ok ()
    | false => Except.error (PolarsError.ComputeError ("Could not parse timezone: " ++ tz))

/-- Modelled from the spec: the `cast_timezone` kernel (polars-arrow, not
under src/). The target zone string must pass validation before any
conversion proceeds; on failure the error is returned and nothing is
produced. Each non-null tick is then converted independently through the
zone database; nulls pass through untouched. -/
def cast_timezone (db : TZDatabase) (arr : List (Option Int)) (tu : TimeUnit)
    (toZone fromZone : String) : Except PolarsError (List (Option Int)) :=
  match validate_time_zone db toZone with
  | Except.error e => Except.error e
  | Except.ok _ =>
    Except.ok (arr.map (Option.map (fun t => db.convertInstant t tu fromZone toZone)))

/-- The temporal column (`DatetimeChunked` of the source): nullable ticks
plus column-level resolution and optional zone metadata. The chunked
storage is collapsed to one logical list. -/
structure DatetimeChunked where
  name : String
  ticks : List (Option Int)
  timeUnit : TimeUnit
  timeZone : Option String
deriving DecidableEq, Repr

/-- Null mask of a nullable sequence. -/
def nullMask {α : Type} (l : List (Option α)) : List Bool := l.map Option.isNone

/-- Timezone conversion engine, from the source `cast_time_zone`: four
cases on (source zone, target zone); the naive-naive case is the identity,
the other three delegate to the `cast_timezone` kernel with UTC standing in
for the missing side. -/
def cast_time_zone (db : TZDatabase) (self : DatetimeChunked) (tz : Option String) :
    Except PolarsError DatetimeChunked :=
  match self.timeZone, tz with
  | some fromZone, some toZone =>
    match cast_timezone db self.ticks self.timeUnit toZone fromZone with
    | Except.error e => Except.error e
    | Except.ok chunks =>
      Except.ok { name := self.name, ticks := chunks, timeUnit := self.timeUnit,
                  timeZone := some toZone }
  | some fromZone, none =>
    match cast_timezone db self.ticks self.timeUnit "UTC" fromZone with
    | Except.error e => Except.error e
    | Except.ok chunks =>
      Except.ok { name := self.name, ticks := chunks, timeUnit := self.timeUnit,
                  timeZone := none }
  | none, some toZone =>
    match cast_timezone db self.ticks self.timeUnit toZone "UTC" with
    | Except.error e => Except.error e
    | Except.ok chunks =>
      Except.ok { name := self.name, ticks := chunks, timeUnit := self.timeUnit,
                  timeZone := some toZone }
  | none, none => Except.ok self

/-- Relabel the resolution metadata without touching the data (source
`set_time_unit`). -/
def set_time_unit (self : DatetimeChunked) (tu : TimeUnit) : DatetimeChunked :=
  { self with timeUnit := tu }

/-- Rescaling engine, from the source `cast_time_unit`: update the
resolution metadata, then multiply or truncating-divide the ticks by the
scale factor according to the pair of resolutions (Rust division on `i64`
truncates toward zero, hence `Int.tdiv`). -/
def cast_time_unit (self : DatetimeChunked) (tu : TimeUnit) : DatetimeChunked :=
  let current_unit := self.timeUnit
  let out := set_time_unit self tu
  match current_unit, tu with
  | TimeUnit.Nanoseconds, TimeUnit.Microseconds =>
    { out with ticks := self.ticks.map (Option.map (fun v => Int.tdiv v 1000)) }
  | TimeUnit.Nanoseconds, TimeUnit.Milliseconds =>
    { out with ticks := self.ticks.map (Option.map (fun v => Int.tdiv v 1000000)) }
  | TimeUnit.Microseconds, TimeUnit.Nanoseconds =>
    { out with ticks := self.ticks.map (Option.map (fun v => v * 1000)) }
  | TimeUnit.Microseconds, TimeUnit.Milliseconds =>
    { out with ticks := self.ticks.map (Option.map (fun v => Int.tdiv v 1000)) }
  | TimeUnit.Milliseconds, TimeUnit.Nanoseconds =>
    { out with ticks := self.ticks.map (Option.map (fun v => v * 1000000)) }
  | TimeUnit.Milliseconds, TimeUnit.Microseconds =>
    { out with ticks := self.ticks.map (Option.map (fun v => v * 1000)) }
  | TimeUnit.Nanoseconds, TimeUnit.Nanoseconds
  | TimeUnit.Microseconds, TimeUnit.Microseconds
  | TimeUnit.Milliseconds, TimeUnit.Milliseconds => out

/-- Relabel the zone metadata without touching the data, after validating
the new zone (source `set_time_zone`). -/
def set_time_zone (db : TZDatabase) (self : DatetimeChunked) (tz : String) :
    Except PolarsError DatetimeChunked :=
  match validate_time_zone db tz with
  | Except.error e => Except.error e
  | Except.ok _ => Except.ok { self with timeZone := some tz }

/-- Zone relabeling operation from the source `with_time_zone`: succeeds
only on a column that already carries a zone; on a naive column it returns
an error and attaches nothing. -/
def with_time_zone (db : TZDatabase) (self : DatetimeChunked) (tz : String) :
    Except PolarsError DatetimeChunked :=
  match self.timeZone with
  | some _ => set_time_zone db self tz
  | none => Except.error (PolarsError.ComputeError
      "Cannot call with_time_zone on tz-naive. Set a time zone first with cast_time_zone")

/-- Neutral-frame wrapper from the source `apply_on_tz_corrected`: run the
transform directly on a naive column; otherwise convert to UTC, run the
transform, relabel the output as UTC and convert back to the original
zone. Every failure short-circuits. -/
def apply_on_tz_corrected (db : TZDatabase) (self : DatetimeChunked)
    (func : DatetimeChunked → Except PolarsError DatetimeChunked) :
    Except PolarsError DatetimeChunked :=
  let ca : Except PolarsError DatetimeChunked :=
    match self.timeZone with
    | some _ => cast_time_zone db self (some "UTC")
    | none => Except.ok self
  match ca with
  | Except.error e => Except.error e
  | Except.ok ca =>
    match func ca with
    | Except.error e => Except.error e
    | Except.ok out =>
      match self.timeZone with
      | some tz =>
        match with_time_zone db out "UTC" with
        | Except.error e => Except.error e
        | Except.ok relabeled => cast_time_zone db relabeled (some tz)
      | none => Except.ok out

/-- Construction from a sequence of calendar values (source
`from_naive_datetime`): encode every value at the requested resolution; the
result is fully non-null, at that resolution, with no zone. -/
def from_naive_datetime (name : String) (v : List NaiveDateTime) (tu : TimeUnit) :
    DatetimeChunked :=
  let func := encode_datetime tu
  { name := name, ticks := (v.map func).map some, timeUnit := tu, timeZone := none }

/-- Construction from a sequence of optional calendar values (source
`from_naive_datetime_options`): nulls pass straight through. -/
def from_naive_datetime_options (name : String) (v : List (Option NaiveDateTime))
    (tu : TimeUnit) : DatetimeChunked :=
  let func := encode_datetime tu
  { name := name, ticks := v.map (Option.map func), timeUnit := tu, timeZone := none }

/-- Lazily decoded calendar view of a column (source `as_datetime_iter`):
a strict one-to-one map of the decode function over the nullable ticks. -/
def as_datetime_iter (self : DatetimeChunked) : List (Option NaiveDateTime) :=
  let func := decode_timestamp self.timeUnit
  self.ticks.map (Option.map func)

/-- Text column produced by the renderer (source `Utf8Chunked`). -/
structure Utf8Chunked where
  name : String
  values : List (Option String)
deriving DecidableEq, Repr

/-- Per-element rendering loop of `strftime`: a null pushes a null, a
non-null tick is rendered into the output; a rendering failure is an
unrecoverable abort in the source (the write result is unwrapped), which
the model signals as `none`. -/
def renderAll (arr : List (Option Int)) (render1 : Int → Option String) :
    Option (List (Option String)) :=
  match arr with
  | [] => some []
  | none :: rest =>
    match renderAll rest render1 with
    | none => none
    | some tail => some (none :: tail)
  | some v :: rest =>
    match render1 v with
    | none => none
    | some s =>
      match renderAll rest render1 with
      | none => none
      | some tail => some (some s :: tail)

/-- Text renderer from the source `strftime`. The `render` argument is the
external chrono formatting grammar (modelled from the spec: pattern plus
calendar value to optional text, `none` meaning a formatting failure). The
source first renders a sample date (aborting on failure), converts a zoned
column to UTC (unwrapping the result), then renders every element
(unwrapping every write); all three unrecoverable aborts are modelled as a
`none` result. -/
def strftime (db : TZDatabase) (render : String → NaiveDateTime → Option String)
    (self : DatetimeChunked) (fmt : String) : Option Utf8Chunked :=
  let conversion_f := decode_timestamp self.timeUnit
  let sample : NaiveDateTime :=
    { year := 2001, month := 1, day := 1, hour := 0, minute := 0, second := 0, nanosecond := 0 }
  match render fmt sample with
  | none => none
  | some _ =>
    let ca : Option DatetimeChunked :=
      match self.timeZone with
      | some _ =>
        match cast_time_zone db self (some "UTC") with
        | Except.error _ => none
        | Except.ok c => some c
      | none => some self
    match ca with
    | none => none
    | some ca =>
      match renderAll ca.ticks (fun v => render fmt (conversion_f v)) with
      | none => none
      | some vals => some { name := self.name, values := vals }

set_option maxHeartbeats 4000000 in
theorem cfd_yoe_eq (yoe doy : Int) (h1 : 0 ≤ yoe) (h2 : yoe ≤ 399) (h3 : 0 ≤ doy)
    (h4 : doy ≤ 364 ∨ (doy = 365 ∧ (yoe + 1) % 4 = 0 ∧
      (¬ (yoe + 1) % 100 = 0 ∨ (yoe + 1) % 400 = 0))) :
    cfd_yoe (365 * yoe + yoe / 4 - yoe / 100 + doy) = yoe := by
  unfold cfd_yoe
  interval_cases yoe <;> omega

theorem civil_from_days_eq (era yoe doy : Int)
    (h1 : 0 ≤ yoe) (h2 : yoe ≤ 399) (h3 : 0 ≤ doy)
    (h4 : doy ≤ 364 ∨ (doy = 365 ∧ (yoe + 1) % 4 = 0 ∧
      (¬ (yoe + 1) % 100 = 0 ∨ (yoe + 1) % 400 = 0))) :
    civil_from_days (era * 146097 + (365 * yoe + yoe / 4 - yoe / 100 + doy) - 719468) =
      ((if (if (5 * doy + 2) / 153 < 10 then (5 * doy + 2) / 153 + 3
            else (5 * doy + 2) / 153 - 9) ≤ 2
        then yoe + era * 400 + 1 else yoe + era * 400),
       (if (5 * doy + 2) / 153 < 10 then (5 * doy + 2) / 153 + 3
        else (5 * doy + 2) / 153 - 9).toNat,
       (doy - (153 * ((5 * doy + 2) / 153) + 2) / 5 + 1).toNat) := by
  have hyoe : cfd_yoe (365 * yoe + yoe / 4 - yoe / 100 + doy) = yoe :=
    cfd_yoe_eq yoe doy h1 h2 h3 h4
  have hera : cfd_era (era * 146097 + (365 * yoe + yoe / 4 - yoe / 100 + doy) - 719468) = era := by
    unfold cfd_era; omega
  have hdoe : cfd_doe (era * 146097 + (365 * yoe + yoe / 4 - yoe / 100 + doy) - 719468) =
      365 * yoe + yoe / 4 - yoe / 100 + doy := by
    unfold cfd_doe; omega
  have hdoy : cfd_doy (365 * yoe + yoe / 4 - yoe / 100 + doy) yoe = doy := by
    unfold cfd_doy; ring
  simp only [civil_from_days, hera, hdoe, hyoe, hdoy]

theorem civil_round (y : Int) (m d : Nat) (hm1 : 1 ≤ m) (hm2 : m ≤ 12) (hd1 : 1 ≤ d)
    (hd2 : d ≤ daysInMonth y m) :
    civil_from_days (days_from_civil y m d) = (y, m, d) := by
  rcases Nat.lt_or_ge 2 m with hm3 | hm3
  · -- months March to December
    have hdim : (d : Int) ≤ (153 * ((m : Int) - 3 + 1) + 2) / 5 - (153 * ((m : Int) - 3) + 2) / 5 := by
      interval_cases m <;> simp only [daysInMonth] at hd2 <;> omega
    have hz : days_from_civil y m d =
        (y / 400) * 146097 +
          (365 * (y - y / 400 * 400) + (y - y / 400 * 400) / 4 - (y - y / 400 * 400) / 100 +
            ((153 * ((m : Int) - 3) + 2) / 5 + (d : Int) - 1)) - 719468 := by
      simp only [days_from_civil]
      rw [if_neg (by omega), if_pos (by omega)]
      omega
    rw [hz, civil_from_days_eq (y / 400) (y - y / 400 * 400)
          ((153 * ((m : Int) - 3) + 2) / 5 + (d : Int) - 1)
          (by omega) (by omega) (by omega) (Or.inl (by omega))]
    have hmp : (5 * ((153 * ((m : Int) - 3) + 2) / 5 + (d : Int) - 1) + 2) / 153 = (m : Int) - 3 := by
      omega
    rw [hmp, if_pos (by omega : (m : Int) - 3 < 10), if_neg (by omega : ¬ (m : Int) - 3 + 3 ≤ 2)]
    simp only [Prod.mk.injEq]
    refine ⟨by omega, by omega, by omega⟩
  · -- months January and February
    interval_cases m
    · -- January
      have hd31 : d ≤ 31 := by simpa [daysInMonth] using hd2
      have hz : days_from_civil y 1 d =
          ((y - 1) / 400) * 146097 +
            (365 * (y - 1 - (y - 1) / 400 * 400) + (y - 1 - (y - 1) / 400 * 400) / 4 -
              (y - 1 - (y - 1) / 400 * 400) / 100 + (306 + (d : Int) - 1)) - 719468 := by
        simp only [days_from_civil]
        rw [if_pos (by omega), if_neg (by omega)]
        omega
      rw [hz, civil_from_days_eq ((y - 1) / 400) (y - 1 - (y - 1) / 400 * 400)
            (306 + (d : Int) - 1) (by omega) (by omega) (by omega) (Or.inl (by omega))]
      have hmp : (5 * (306 + (d : Int) - 1) + 2) / 153 = 10 := by omega
      rw [hmp, if_neg (by omega : ¬ (10 : Int) < 10), if_pos (by omega : (10 : Int) - 9 ≤ 2)]
      simp only [Prod.mk.injEq]
      refine ⟨by omega, by omega, by omega⟩
    · -- February
      have hdf : (d : Int) ≤ 28 ∨ ((d : Int) = 29 ∧
          (y - 1 - (y - 1) / 400 * 400 + 1) % 4 = 0 ∧
          (¬ (y - 1 - (y - 1) / 400 * 400 + 1) % 100 = 0 ∨
            (y - 1 - (y - 1) / 400 * 400 + 1) % 400 = 0)) := by
        by_cases hL : IsLeapYear y
        · simp only [daysInMonth, if_pos hL] at hd2
          unfold IsLeapYear at hL
          rcases Nat.lt_or_ge d 29 with h | h
          · exact Or.inl (by omega)
          · exact Or.inr (by omega)
        · simp only [daysInMonth, if_neg hL] at hd2
          exact Or.inl (by omega)
      have hz : days_from_civil y 2 d =
          ((y - 1) / 400) * 146097 +
            (365 * (y - 1 - (y - 1) / 400 * 400) + (y - 1 - (y - 1) / 400 * 400) / 4 -
              (y - 1 - (y - 1) / 400 * 400) / 100 + (337 + (d : Int) - 1)) - 719468 := by
        simp only [days_from_civil]
        rw [if_pos (by omega), if_neg (by omega)]
        omega
      rw [hz, civil_from_days_eq ((y - 1) / 400) (y - 1 - (y - 1) / 400 * 400)
            (337 + (d : Int) - 1) (by omega) (by omega) (by omega) (by omega)]
      have hmp : (5 * (337 + (d : Int) - 1) + 2) / 153 = 11 := by omega
      rw [hmp, if_neg (by omega : ¬ (11 : Int) < 10), if_pos (by omega : (11 : Int) - 9 ≤ 2)]
      simp only [Prod.mk.injEq]
      refine ⟨by omega, by omega, by omega⟩

theorem decode_encode_id (dt : NaiveDateTime) (tu : TimeUnit)
    (hv : ValidDateTime dt) (hr : RepresentableAt dt tu) :
    decode_timestamp tu (encode_datetime tu dt) = dt := by
  obtain ⟨y, m, d, hh, mi, ss, ns⟩ := dt
  obtain ⟨h1, h2, h3, h4, h5, h6, h7, h8⟩ := hv
  dsimp only at h1 h2 h3 h4 h5 h6 h7 h8
  have hciv := civil_round y m d h1 h2 h3 h4
  cases tu with
  | Nanoseconds =>
    simp only [decode_timestamp, encode_datetime, datetime_to_timestamp_ns,
      timestamp_ns_to_datetime]
    generalize hD : days_from_civil y m d = D at hciv ⊢
    rw [show ((D * 86400 + ((hh : Int) * 3600 + (mi : Int) * 60 + (ss : Int))) * 1000000000 +
          (ns : Int)) / 1000000000 / 86400 = D from by omega]
    rw [hciv]
    simp only [NaiveDateTime.mk.injEq]
    refine ⟨trivial, trivial, trivial, by omega, by omega, by omega, by omega⟩
  | Microseconds =>
    simp only [RepresentableAt] at hr
    simp only [decode_timestamp, encode_datetime, datetime_to_timestamp_us,
      timestamp_us_to_datetime]
    generalize hD : days_from_civil y m d = D at hciv ⊢
    rw [show ((D * 86400 + ((hh : Int) * 3600 + (mi : Int) * 60 + (ss : Int))) * 1000000 +
          ((ns / 1000 : Nat) : Int)) / 1000000 / 86400 = D from by omega]
    rw [hciv]
    simp only [NaiveDateTime.mk.injEq]
    refine ⟨trivial, trivial, trivial, by omega, by omega, by omega, by omega⟩
  | Milliseconds =>
    simp only [RepresentableAt] at hr
    simp only [decode_timestamp, encode_datetime, datetime_to_timestamp_ms,
      timestamp_ms_to_datetime]
    generalize hD : days_from_civil y m d = D at hciv ⊢
    rw [show ((D * 86400 + ((hh : Int) * 3600 + (mi : Int) * 60 + (ss : Int))) * 1000 +
          ((ns / 1000000 : Nat) : Int)) / 1000 / 86400 = D from by omega]
    rw [hciv]
    simp only [NaiveDateTime.mk.injEq]
    refine ⟨trivial, trivial, trivial, by omega, by omega, by omega, by omega⟩

theorem nullMask_map_optionMap {α β : Type} (f : α → β) (l : List (Option α)) :
    nullMask (l.map (Option.map f)) = nullMask l := by
  induction l with
  | nil => rfl
  | cons hd tl ih => cases hd <;> simpa [nullMask] using ih

theorem cast_timezone_ok (db : TZDatabase) (arr : List (Option Int)) (tu : TimeUnit)
    (toZone fromZone : String) (out : List (Option Int))
    (h : cast_timezone db arr tu toZone fromZone = Except.ok out) :
    out = arr.map (Option.map (fun t => db.convertInstant t tu fromZone toZone)) := by
  unfold cast_timezone at h
  cases hv : validate_time_zone db toZone with
  | error e => rw [hv] at h; cases h
  | ok u => rw [hv] at h; exact (Except.ok.inj h).symm

theorem cast_time_zone_ok_ticks (db : TZDatabase) (self : DatetimeChunked)
    (tz : Option String) (out : DatetimeChunked)
    (h : cast_time_zone db self tz = Except.ok out) :
    out.ticks = self.ticks ∨ ∃ g : Int → Int, out.ticks = self.ticks.map (Option.map g) := by
  rcases hsz : self.timeZone with _ | fromZone <;> rcases tz with _ | toZone <;>
      simp only [cast_time_zone, hsz] at h
  · exact Or.inl (by rw [← Except.ok.inj h])
  · cases hct : cast_timezone db self.ticks self.timeUnit toZone "UTC" with
    | error e => simp only [hct] at h; exact Except.noConfusion h
    | ok chunks =>
      simp only [hct] at h
      injection h with h2
      exact Or.inr ⟨fun t => db.convertInstant t self.timeUnit "UTC" toZone,
        by rw [← h2]; exact cast_timezone_ok db _ _ _ _ _ hct⟩
  · cases hct : cast_timezone db self.ticks self.timeUnit "UTC" fromZone with
    | error e => simp only [hct] at h; exact Except.noConfusion h
    | ok chunks =>
      simp only [hct] at h
      injection h with h2
      exact Or.inr ⟨fun t => db.convertInstant t self.timeUnit fromZone "UTC",
        by rw [← h2]; exact cast_timezone_ok db _ _ _ _ _ hct⟩
  · cases hct : cast_timezone db self.ticks self.timeUnit toZone fromZone with
    | error e => simp only [hct] at h; exact Except.noConfusion h
    | ok chunks =>
      simp only [hct] at h
      injection h with h2
      exact Or.inr ⟨fun t => db.convertInstant t self.timeUnit fromZone toZone,
        by rw [← h2]; exact cast_timezone_ok db _ _ _ _ _ hct⟩

theorem renderAll_shape (render1 : Int → Option String) (arr : List (Option Int))
    (vals : List (Option String)) (h : renderAll arr render1 = some vals) :
    vals.length = arr.length ∧ nullMask vals = nullMask arr := by
  induction arr generalizing vals with
  | nil =>
    simp only [renderAll] at h
    injection h with h2
    subst h2
    exact ⟨rfl, rfl⟩
  | cons hd tl ih =>
    cases hd with
    | none =>
      simp only [renderAll] at h
      cases hr : renderAll tl render1 with
      | none => simp only [hr] at h; exact Option.noConfusion h
      | some tail =>
        simp only [hr] at h
        injection h with h2
        subst h2
        obtain ⟨hlen, hmask⟩ := ih tail hr
        exact ⟨by simpa using hlen, by simpa [nullMask] using hmask⟩
    | some v =>
      simp only [renderAll] at h
      cases hrv : render1 v with
      | none => simp only [hrv] at h; exact Option.noConfusion h
      | some s =>
        simp only [hrv] at h
        cases hr : renderAll tl render1 with
        | none => simp only [hr] at h; exact Option.noConfusion h
        | some tail =>
          simp only [hr] at h
          injection h with h2
          subst h2
          obtain ⟨hlen, hmask⟩ := ih tail hr
          exact ⟨by simpa using hlen, by simpa [nullMask] using hmask⟩

/-- C1: `cast_time_unit` never fails (it is a total function into columns);
it sets the resolution metadata to the target, leaves the zone and name
untouched, returns the column unchanged when the target equals the current
resolution, multiplies every non-null tick by the scale factor when the
target is finer, truncating-divides every non-null tick by the scale factor
when the target is coarser, and passes nulls through untouched. -/
theorem cast_time_unit_spec (self : DatetimeChunked) (tu : TimeUnit) :
    (cast_time_unit self tu).timeUnit = tu ∧
    (cast_time_unit self tu).timeZone = self.timeZone ∧
    (cast_time_unit self tu).name = self.name ∧
    nullMask (cast_time_unit self tu).ticks = nullMask self.ticks ∧
    (self.timeUnit = tu → cast_time_unit self tu = self) ∧
    (tickRate self.timeUnit < tickRate tu →
      (cast_time_unit self tu).ticks =
        self.ticks.map (Option.map
          (fun v => v * ((tickRate tu / tickRate self.timeUnit : Nat) : Int)))) ∧
    (tickRate tu < tickRate self.timeUnit →
      (cast_time_unit self tu).ticks =
        self.ticks.map (Option.map
          (fun v => Int.tdiv v ((tickRate self.timeUnit / tickRate tu : Nat) : Int)))) := by
  obtain ⟨nm, ticks, u, z⟩ := self
  cases u <;> cases tu <;>
    refine ⟨rfl, rfl, rfl, ?_, ?_, ?_, ?_⟩ <;>
    first
      | exact nullMask_map_optionMap _ _
      | rfl
      | (intro h; rfl)
      | (intro h; simp [tickRate] at h; done)
      | (intro h; simp only [cast_time_unit, set_time_unit, tickRate]; norm_num; done)

/-- C1 witness: at a concrete nanosecond column cast to milliseconds, the
coarser-direction clause of `cast_time_unit_spec` applies and evaluates. -/
theorem cast_time_unit_spec_witness :
    tickRate TimeUnit.Milliseconds < tickRate TimeUnit.Nanoseconds ∧
    (cast_time_unit ⟨"a", [some 1500000, none], TimeUnit.Nanoseconds, none⟩
        TimeUnit.Milliseconds).ticks = [some 1, none] := by
  refine ⟨by decide, ?_⟩
  rw [(cast_time_unit_spec ⟨"a", [some 1500000, none], TimeUnit.Nanoseconds, none⟩
        TimeUnit.Milliseconds).2.2.2.2.2.2 (by decide)]
  decide

/-- C2: the rescaling engine preserves length and the null mask; a
successful zone cast preserves length and the null mask; a successful
format run produces a text column whose length and null mask mirror the
input column exactly. -/
theorem null_and_length_preservation :
    (∀ (self : DatetimeChunked) (tu : TimeUnit),
      (cast_time_unit self tu).ticks.length = self.ticks.length ∧
      nullMask (cast_time_unit self tu).ticks = nullMask self.ticks) ∧
    (∀ (db : TZDatabase) (self : DatetimeChunked) (tz : Option String) (out : DatetimeChunked),
      cast_time_zone db self tz = Except.ok out →
      out.ticks.length = self.ticks.length ∧ nullMask out.ticks = nullMask self.ticks) ∧
    (∀ (db : TZDatabase) (render : String → NaiveDateTime → Option String)
        (self : DatetimeChunked) (fmt : String) (out : Utf8Chunked),
      strftime db render self fmt = some out →
      out.values.length = self.ticks.length ∧ nullMask out.values = nullMask self.ticks) := by
  refine ⟨?_, ?_, ?_⟩
  · intro self tu
    obtain ⟨nm, ticks, u, z⟩ := self
    cases u <;> cases tu <;>
      refine ⟨?_, ?_⟩ <;>
      first
        | rfl
        | exact List.length_map _ _
        | exact nullMask_map_optionMap _ _
  · intro db self tz out h
    rcases cast_time_zone_ok_ticks db self tz out h with he | ⟨g, he⟩
    · rw [he]; exact ⟨rfl, rfl⟩
    · rw [he]; exact ⟨List.length_map _ _, nullMask_map_optionMap _ _⟩
  · intro db render self fmt out h
    simp only [strftime] at h
    cases hrs : render fmt ⟨2001, 1, 1, 0, 0, 0, 0⟩ with
    | none => simp only [hrs] at h; exact Option.noConfusion h
    | some s0 =>
      simp only [hrs] at h
      rcases hsz : self.timeZone with _ | tzv <;> simp only [hsz] at h
      · cases hra : renderAll self.ticks (fun v => render fmt (decode_timestamp self.timeUnit v)) with
        | none => simp only [hra] at h; exact Option.noConfusion h
        | some vals =>
          simp only [hra] at h
          injection h with h2
          obtain ⟨hlen, hmask⟩ := renderAll_shape _ _ _ hra
          rw [← h2]
          exact ⟨hlen, hmask⟩
      · cases hcz : cast_time_zone db self (some "UTC") with
        | error e => simp only [hcz] at h; exact Option.noConfusion h
        | ok c =>
          simp only [hcz] at h
          cases hra : renderAll c.ticks (fun v => render fmt (decode_timestamp self.timeUnit v)) with
          | none => simp only [hra] at h; exact Option.noConfusion h
          | some vals =>
            simp only [hra] at h
            injection h with h2
            obtain ⟨hlen, hmask⟩ := renderAll_shape _ _ _ hra
            have hl2 : vals.length = self.ticks.length := by
              rcases cast_time_zone_ok_ticks db self (some "UTC") c hcz with he | ⟨g, he⟩
              · rw [hlen, he]
              · rw [hlen, he]; exact List.length_map _ _
            have hm2 : nullMask vals = nullMask self.ticks := by
              rcases cast_time_zone_ok_ticks db self (some "UTC") c hcz with he | ⟨g, he⟩
              · rw [hmask, he]
              · rw [hmask, he]; exact nullMask_map_optionMap _ _
            rw [← h2]
            exact ⟨hl2, hm2⟩

/-- C2 witness: the format clause of `null_and_length_preservation`
evaluated on a concrete two-element column with one null. -/
theorem null_and_length_preservation_witness :
    (Utf8Chunked.mk "w" [some "r", none]).values.length =
        (DatetimeChunked.mk "w" [some 0, none] TimeUnit.Nanoseconds none).ticks.length ∧
    nullMask (Utf8Chunked.mk "w" [some "r", none]).values =
      nullMask (DatetimeChunked.mk "w" [some 0, none] TimeUnit.Nanoseconds none).ticks :=
  null_and_length_preservation.2.2 ⟨fun _ => false, fun _ => false, fun t _ _ _ => t⟩
    (fun _ _ => some "r") (DatetimeChunked.mk "w" [some 0, none] TimeUnit.Nanoseconds none)
    "f" (Utf8Chunked.mk "w" [some "r", none]) rfl

/-- C3: the neutral-frame wrapper runs the transform directly on a naive
column; on a zoned column it is exactly the composition of the UTC
conversion, the transform, the UTC relabel of the output, and the
conversion back to the original zone; failures of the first conversion or
of the transform abort the whole operation with that error. -/
theorem apply_on_tz_corrected_spec (db : TZDatabase) (self : DatetimeChunked)
    (func : DatetimeChunked → Except PolarsError DatetimeChunked) :
    (self.timeZone = none → apply_on_tz_corrected db self func = func self) ∧
    (∀ tz, self.timeZone = some tz →
      apply_on_tz_corrected db self func =
        (cast_time_zone db self (some "UTC")).bind fun ca =>
          (func ca).bind fun out =>
            (with_time_zone db out "UTC").bind fun relabeled =>
              cast_time_zone db relabeled (some tz)) ∧
    (∀ e, self.timeZone = none → func self = Except.error e →
      apply_on_tz_corrected db self func = Except.error e) ∧
    (∀ tz e, self.timeZone = some tz → cast_time_zone db self (some "UTC") = Except.error e →
      apply_on_tz_corrected db self func = Except.error e) := by
  refine ⟨?_, ?_, ?_, ?_⟩
  · intro hz
    simp only [apply_on_tz_corrected, hz]
    cases hf : func self <;> simp only [hf]
  · intro tz hz
    simp only [apply_on_tz_corrected, hz]
    cases hc : cast_time_zone db self (some "UTC") with
    | error e => simp only [hc, Except.bind]
    | ok ca =>
      simp only [hc, Except.bind]
      cases hf : func ca with
      | error e => simp only [hf]
      | ok out =>
        simp only [hf]
        cases hw : with_time_zone db out "UTC" with
        | error e => simp only [hw, Except.bind]
        | ok relabeled => simp only [hw, Except.bind]
  · intro e hz hf
    simp only [apply_on_tz_corrected, hz, hf]
  · intro tz e hz hc
    simp only [apply_on_tz_corrected, hz, hc]

/-- C3 witness: the naive clause of `apply_on_tz_corrected_spec` evaluated
with the identity transform on a concrete zone-less column. -/
theorem apply_on_tz_corrected_spec_witness :
    apply_on_tz_corrected ⟨fun _ => false, fun _ => false, fun t _ _ _ => t⟩
      ⟨"w", [some 1], TimeUnit.Milliseconds, none⟩ Except.ok =
      Except.ok ⟨"w", [some 1], TimeUnit.Milliseconds, none⟩ :=
  (apply_on_tz_corrected_spec ⟨fun _ => false, fun _ => false, fun t _ _ _ => t⟩
    ⟨"w", [some 1], TimeUnit.Milliseconds, none⟩ Except.ok).1 rfl

/-- C4: a zone string rejected by both the fixed-offset parser and the
named-zone lookup makes the validator return the error naming that string,
and makes every zone cast targeting it return the same error with nothing
produced and no tick converted. -/
theorem invalid_zone_rejection (db : TZDatabase) (tz : String)
    (ho : db.parsesAsOffset tz = false) (hk : db.knownZone tz = false) :
    validate_time_zone db tz =
      Except.error (PolarsError.ComputeError ("Could not parse timezone: " ++ tz)) ∧
    ∀ self : DatetimeChunked, cast_time_zone db self (some tz) =
      Except.error (PolarsError.ComputeError ("Could not parse timezone: " ++ tz)) := by
  have hv : validate_time_zone db tz =
      Except.error (PolarsError.ComputeError ("Could not parse timezone: " ++ tz)) := by
    simp only [validate_time_zone, ho, hk]
  refine ⟨hv, ?_⟩
  intro self
  rcases hsz : self.timeZone with _ | fromZone <;>
    simp only [cast_time_zone, hsz, cast_timezone, hv]

/-- C4 witness: `invalid_zone_rejection` evaluated on a database rejecting
every string, the zone "Not/AZone", and a concrete column. -/
theorem invalid_zone_rejection_witness :
    validate_time_zone ⟨fun _ => false, fun _ => false, fun t _ _ _ => t⟩ "Not/AZone" =
      Except.error (PolarsError.ComputeError ("Could not parse timezone: " ++ "Not/AZone")) ∧
    cast_time_zone ⟨fun _ => false, fun _ => false, fun t _ _ _ => t⟩
        ⟨"w", [some 1], TimeUnit.Nanoseconds, none⟩ (some "Not/AZone") =
      Except.error (PolarsError.ComputeError ("Could not parse timezone: " ++ "Not/AZone")) := by
  have h := invalid_zone_rejection ⟨fun _ => false, fun _ => false, fun t _ _ _ => t⟩
    "Not/AZone" rfl rfl
  exact ⟨h.1, h.2 ⟨"w", [some 1], TimeUnit.Nanoseconds, none⟩⟩

/-- C5: rescaling nanoseconds to milliseconds and back restores every tick
that is an exact multiple of 1000000; on the tick 1500000 the forward cast
truncates to 1, and the way back yields 1000000, not the original value. -/
theorem resolution_round_trip :
    (∀ (self : DatetimeChunked), self.timeUnit = TimeUnit.Nanoseconds →
      ∀ (i : Nat) (v : Int), self.ticks.get? i = some (some v) → (1000000 : Int) ∣ v →
        (cast_time_unit (cast_time_unit self TimeUnit.Milliseconds)
            TimeUnit.Nanoseconds).ticks.get? i = some (some v)) ∧
    (cast_time_unit ⟨"", [some 1500000], TimeUnit.Nanoseconds, none⟩
        TimeUnit.Milliseconds).ticks = [some 1] ∧
    (cast_time_unit (cast_time_unit ⟨"", [some 1500000], TimeUnit.Nanoseconds, none⟩
        TimeUnit.Milliseconds) TimeUnit.Nanoseconds).ticks = [some 1000000] ∧
    ([some (1000000 : Int)] : List (Option Int)) ≠ [some 1500000] := by
  refine ⟨?_, by decide, by decide, by decide⟩
  intro self hu i v hv hdvd
  obtain ⟨nm, ticks, u, z⟩ := self
  dsimp only at hu hv
  subst hu
  have hc : Int.tdiv v 1000000 * 1000000 = v := by
    obtain ⟨k, rfl⟩ := hdvd
    rw [Int.mul_tdiv_cancel_left k (by norm_num)]
    ring
  show ((ticks.map (Option.map (fun w => Int.tdiv w 1000000))).map
      (Option.map (fun w => w * 1000000))).get? i = some (some v)
  rw [List.get?_map, List.get?_map, hv]
  simp only [Option.map_some']
  rw [hc]

/-- C5 witness: the exact-multiple clause of `resolution_round_trip`
evaluated at the tick 3000000. -/
theorem resolution_round_trip_witness :
    (cast_time_unit (cast_time_unit ⟨"", [some 3000000], TimeUnit.Nanoseconds, none⟩
        TimeUnit.Milliseconds) TimeUnit.Nanoseconds).ticks.get? 0 = some (some 3000000) :=
  resolution_round_trip.1 ⟨"", [some 3000000], TimeUnit.Nanoseconds, none⟩ rfl 0 3000000
    rfl ⟨3, by norm_num⟩

/-- C6: encode then decode is the identity for every valid calendar value
representable at the resolution; consequently iterating the decoded values
of a column built by `from_naive_datetime` returns the original inputs. -/
theorem encode_decode_identity :
    (∀ (dt : NaiveDateTime) (res : TimeUnit), ValidDateTime dt → RepresentableAt dt res →
      decode_timestamp res (encode_datetime res dt) = dt) ∧
    (∀ (name : String) (vs : List NaiveDateTime) (res : TimeUnit),
      (∀ dt ∈ vs, ValidDateTime dt ∧ RepresentableAt dt res) →
      as_datetime_iter (from_naive_datetime name vs res) = vs.map some) := by
  refine ⟨fun dt res hv hr => decode_encode_id dt res hv hr, ?_⟩
  intro name vs res hall
  simp only [as_datetime_iter, from_naive_datetime, List.map_map]
  apply List.map_congr_left
  intro dt hdt
  obtain ⟨hv, hr⟩ := hall dt hdt
  simp [Function.comp, decode_encode_id dt res hv hr]

/-- C6 witness: `encode_decode_identity` evaluated at a representative
calendar value and at a one-element column, at millisecond resolution. -/
theorem encode_decode_identity_witness :
    decode_timestamp TimeUnit.Milliseconds
        (encode_datetime TimeUnit.Milliseconds ⟨2012, 12, 21, 4, 5, 6, 7000000⟩) =
      ⟨2012, 12, 21, 4, 5, 6, 7000000⟩ ∧
    as_datetime_iter (from_naive_datetime "w" [⟨2012, 12, 21, 4, 5, 6, 7000000⟩]
        TimeUnit.Milliseconds) = [some ⟨2012, 12, 21, 4, 5, 6, 7000000⟩] :=
  ⟨encode_decode_identity.1 ⟨2012, 12, 21, 4, 5, 6, 7000000⟩ TimeUnit.Milliseconds
      (by decide) (by decide),
   encode_decode_identity.2 "w" [⟨2012, 12, 21, 4, 5, 6, 7000000⟩] TimeUnit.Milliseconds
      (by intro dt hdt; simp at hdt; subst hdt; exact ⟨by decide, by decide⟩)⟩

/-- C7: casting a naive column to the naive target is the identity: no
computation happens and the very same column, with identical ticks, is
returned. -/
theorem cast_time_zone_none_identity (db : TZDatabase) (self : DatetimeChunked)
    (h : self.timeZone = none) :
    cast_time_zone db self none = Except.ok self := by
  simp only [cast_time_zone, h]

/-- C7 witness: `cast_time_zone_none_identity` evaluated on a concrete
naive column. -/
theorem cast_time_zone_none_identity_witness :
    cast_time_zone ⟨fun _ => false, fun _ => false, fun t _ _ _ => t⟩
      ⟨"n", [some 5, none], TimeUnit.Microseconds, none⟩ none =
      Except.ok ⟨"n", [some 5, none], TimeUnit.Microseconds, none⟩ :=
  cast_time_zone_none_identity ⟨fun _ => false, fun _ => false, fun t _ _ _ => t⟩
    ⟨"n", [some 5, none], TimeUnit.Microseconds, none⟩ rfl

/-- C8: evaluation of the source behavior at a failing render. With a
formatting grammar that renders the sample date but fails on the element
value, `strftime` aborts the whole run (the source unwraps the write
result; the model returns `none`) instead of surfacing a recoverable
`ComputeError`; its return type has no error channel at all. -/
theorem strftime_aborts_on_render_failure :
    strftime ⟨fun _ => false, fun _ => false, fun t _ _ _ => t⟩
      (fun _ dt => if dt.year = 2001 then some "2001-01-01" else none)
      ⟨"a", [some 0], TimeUnit.Nanoseconds, none⟩ "%Y-%m-%d" = none := by
  decide

/-- C9: constructing a nanosecond column from the three scenario calendar
values yields exactly the scenario raw ticks, in order. -/
theorem from_naive_datetime_scenario :
    (from_naive_datetime "name"
        [⟨1988, 8, 25, 0, 0, 16, 0⟩, ⟨2015, 9, 5, 23, 56, 4, 0⟩, ⟨2012, 12, 21, 0, 0, 0, 0⟩]
        TimeUnit.Nanoseconds).ticks =
      [some 588470416000000000, some 1441497364000000000, some 1356048000000000000] := by
  decide

/-- C10: the relabel-only zone operation fails with the dedicated error on
a naive column, attaching nothing, and can succeed only on a column that
already carries a zone. -/
theorem with_time_zone_requires_zone (db : TZDatabase) (self : DatetimeChunked) (tz : String) :
    (self.timeZone = none →
      with_time_zone db self tz = Except.error (PolarsError.ComputeError
        "Cannot call with_time_zone on tz-naive. Set a time zone first with cast_time_zone")) ∧
    (∀ out, with_time_zone db self tz = Except.ok out → ∃ z, self.timeZone = some z) := by
  constructor
  · intro h
    simp only [with_time_zone, h]
  · intro out h
    rcases hsz : self.timeZone with _ | z
    · simp only [with_time_zone, hsz] at h
      exact Except.noConfusion h
    · exact ⟨z, rfl⟩

/-- C10 witness: the naive clause of `with_time_zone_requires_zone`
evaluated on a concrete naive column. -/
theorem with_time_zone_requires_zone_witness :
    with_time_zone ⟨fun _ => false, fun _ => false, fun t _ _ _ => t⟩
      ⟨"w", [some 2], TimeUnit.Milliseconds, none⟩ "UTC" =
      Except.error (PolarsError.ComputeError
        "Cannot call with_time_zone on tz-naive. Set a time zone first with cast_time_zone") :=
  (with_time_zone_requires_zone ⟨fun _ => false, fun _ => false, fun t _ _ _ => t⟩
    ⟨"w", [some 2], TimeUnit.Milliseconds, none⟩ "UTC").1 rfl
